import Mathlib

/-
Verification of the task-management REST API backend.

Shallow embedding of the relevant parts of the backend:
data model (app/models), authorization helpers and route handlers
(app/routes, app/decorators.py). UUIDs and JWT identities travel as
strings in the source, so ids are modelled as String; timestamps as Nat.
Password hashing is delegated to an external library in the source and no
property inspects the hash, so set_password is modelled as storing the
input verbatim. HTTP requests are modelled as pure functions from a Store
(the relational state) and a caller (JWT identity string plus the role
claim) to a reply and a new Store.
-/

namespace App

-- ============================================================
-- ENUMS (app/models/user.py, project.py, task.py)
-- ============================================================

/-- UserRole from app/models/user.py; also used for project-member roles. -/
inductive Role where
  | ADMIN
  | MANAGER
  | MEMBER
  | VIEWER
deriving DecidableEq, Repr

/-- The .value string of the Python enum member. -/
def Role.value : Role → String
  | .ADMIN => "ADMIN"
  | .MANAGER => "MANAGER"
  | .MEMBER => "MEMBER"
  | .VIEWER => "VIEWER"

/-- UserRole[name] lookup; KeyError becomes none. -/
def Role.fromName : String → Option Role
  | "ADMIN" => some .ADMIN
  | "MANAGER" => some .MANAGER
  | "MEMBER" => some .MEMBER
  | "VIEWER" => some .VIEWER
  | _ => none

/-- TaskStatus from app/models/task.py. -/
inductive TaskStatus where
  | TODO
  | IN_PROGRESS
  | IN_REVIEW
  | DONE
  | ARCHIVED
deriving DecidableEq, Repr

/-- TaskStatus[name] lookup; KeyError becomes none. -/
def TaskStatus.fromName : String → Option TaskStatus
  | "TODO" => some .TODO
  | "IN_PROGRESS" => some .IN_PROGRESS
  | "IN_REVIEW" => some .IN_REVIEW
  | "DONE" => some .DONE
  | "ARCHIVED" => some .ARCHIVED
  | _ => none

/-- TaskPriority from app/models/task.py. -/
inductive TaskPriority where
  | LOW
  | MEDIUM
  | HIGH
  | URGENT
deriving DecidableEq, Repr

/-- TaskPriority[name] lookup; KeyError becomes none. -/
def TaskPriority.fromName : String → Option TaskPriority
  | "LOW" => some .LOW
  | "MEDIUM" => some .MEDIUM
  | "HIGH" => some .HIGH
  | "URGENT" => some .URGENT
  | _ => none

/-- ProjectStatus from app/models/project.py. -/
inductive ProjectStatus where
  | PLANNING
  | ACTIVE
  | ON_HOLD
  | COMPLETED
  | ARCHIVED
deriving DecidableEq, Repr

/-- ProjectStatus[name] lookup; KeyError becomes none. -/
def ProjectStatus.fromName : String → Option ProjectStatus
  | "PLANNING" => some .PLANNING
  | "ACTIVE" => some .ACTIVE
  | "ON_HOLD" => some .ON_HOLD
  | "COMPLETED" => some .COMPLETED
  | "ARCHIVED" => some .ARCHIVED
  | _ => none

-- ============================================================
-- STRING PRIMITIVES
-- ============================================================
-- The Python string methods used by the handlers, implemented by
-- structural recursion over the character list so that concrete
-- evaluations reduce inside the kernel.

/-- str.strip(): drop whitespace from both ends. -/
def pyStrip (s : String) : String :=
  ⟨((s.data.dropWhile Char.isWhitespace).reverse.dropWhile Char.isWhitespace).reverse⟩

/-- str.upper() on the ASCII letters. -/
def pyUpper (s : String) : String := ⟨s.data.map Char.toUpper⟩

/-- str.lower() on the ASCII letters. -/
def pyLower (s : String) : String := ⟨s.data.map Char.toLower⟩

/-- Split a character list on a separator; n separators give n+1 parts. -/
def splitOnChar (sep : Char) : List Char → List (List Char)
  | [] => [[]]
  | c :: cs =>
    match splitOnChar sep cs with
    | [] => [[c]]
    | h :: t => if c = sep then [] :: h :: t else (c :: h) :: t

/-- str.split(sep) for a one-character separator. -/
def pySplit (s : String) (sep : Char) : List String :=
  (splitOnChar sep s.data).map (fun l => ⟨l⟩)

/-- int(s) for a nonempty all-digit string, else none. -/
def pyToNat (s : String) : Option Nat :=
  if s.data ≠ [] ∧ s.data.all Char.isDigit then
    some (s.data.foldl (fun n c => n * 10 + (c.toNat - 48)) 0)
  else none

-- ============================================================
-- DATES (datetime.strptime with format %Y-%m-%d)
-- ============================================================

/-- A calendar date, the result of parsing a YYYY-MM-DD string. -/
structure DateYMD where
  year : Nat
  month : Nat
  day : Nat
deriving DecidableEq, Repr

def isLeapYear (y : Nat) : Bool :=
  (y % 4 == 0 && y % 100 != 0) || y % 400 == 0

def daysInMonth (y m : Nat) : Nat :=
  if m = 2 then (if isLeapYear y then 29 else 28)
  else if m = 4 ∨ m = 6 ∨ m = 9 ∨ m = 11 then 30
  else 31

/-- datetime.strptime(s, %Y-%m-%d).date(): three dash-separated numeric
fields forming a valid calendar date, else a ValueError (none). -/
def parseDate (s : String) : Option DateYMD :=
  match pySplit s '-' with
  | [ys, ms, ds] =>
    match pyToNat ys, pyToNat ms, pyToNat ds with
    | some y, some m, some d =>
      if 1 ≤ y ∧ y ≤ 9999 ∧ 1 ≤ m ∧ m ≤ 12 ∧ 1 ≤ d ∧ d ≤ daysInMonth y m then
        some ⟨y, m, d⟩
      else none
    | _, _, _ => none
  | _ => none

/-- Total order key for comparing dates (Python date comparison). -/
def DateYMD.key (d : DateYMD) : Nat :=
  d.year * 10000 + d.month * 100 + d.day

-- ============================================================
-- DATA MODEL (app/models)
-- ============================================================

/-- User record (app/models/user.py). Timestamp columns that no modelled
handler reads are omitted. -/
structure User where
  id : String
  email : String
  password_hash : String
  full_name : String
  role : Role
  is_active : Bool
deriving DecidableEq, Repr

/-- Project record (app/models/project.py). -/
structure Project where
  id : String
  name : String
  description : Option String
  status : ProjectStatus
  color : String
  owner_id : String
  start_date : Option DateYMD
  end_date : Option DateYMD
deriving DecidableEq, Repr

/-- ProjectMember join record (app/models/project.py); unique per
(project_id, user_id) by database constraint. -/
structure ProjectMember where
  project_id : String
  user_id : String
  role : Role
deriving DecidableEq, Repr

/-- Task record (app/models/task.py). estimated_hours and actual_hours are
never written by any handler and are omitted. -/
structure Task where
  id : String
  title : String
  description : Option String
  status : TaskStatus
  priority : TaskPriority
  project_id : String
  assignee_id : Option String
  reporter_id : String
  position : Int
  due_date : Option DateYMD
  completed_at : Option Nat
  tags : List String
deriving DecidableEq, Repr

/-- The relational store. -/
structure Store where
  users : List User
  projects : List Project
  members : List ProjectMember
  tasks : List Task
deriving DecidableEq, Repr

/-- An HTTP reply: status code and the error or success message. -/
structure HttpReply where
  status : Nat
  msg : String
deriving DecidableEq, Repr

-- ============================================================
-- SHARED HELPERS (identical in routes/projects.py and routes/tasks.py)
-- ============================================================

/-- ProjectMember.query.filter_by(project_id=..., user_id=...).first() -/
def getUserProjectRole (st : Store) (project_id user_id : String) : Option ProjectMember :=
  st.members.find? (fun m => m.project_id == project_id && m.user_id == user_id)

-- ============================================================
-- AUTH HELPERS (app/routes/auth.py)
-- ============================================================

/-- Character class of the local part of the email regex. -/
def emailLocalChar (c : Char) : Bool :=
  c.isAlpha || c.isDigit || c == '.' || c == '_' || c == '%' || c == '+' || c == '-'

/-- Character class of the domain part of the email regex. -/
def emailDomainChar (c : Char) : Bool :=
  c.isAlpha || c.isDigit || c == '.' || c == '-'

/-- validate_email from routes/auth.py: anchored match of
[a-zA-Z0-9._%+-]+ at-sign [a-zA-Z0-9.-]+ dot [a-zA-Z]\x7b2,\x7d.
A matching string has exactly one at-sign, and only the part after the
last dot of the domain can satisfy the all-alpha tail. -/
def validate_email (email : String) : Bool :=
  match pySplit email '@' with
  | [localPart, domainPart] =>
    let parts := pySplit domainPart '.'
    let tld := parts.getLastD ""
    localPart != "" && localPart.data.all emailLocalChar &&
      domainPart.data.all emailDomainChar &&
      decide (2 ≤ parts.length) && parts.dropLast != [""] &&
      decide (2 ≤ tld.length) && tld.data.all Char.isAlpha
  | _ => false

/-- validate_password from routes/auth.py: the four strength rules checked
in order, first failure reported. The regex classes [A-Z], [a-z] and the
digit class are the ASCII character tests. -/
def validate_password (password : String) : Bool × String :=
  if password.length < 8 then
    (false, "Password must be at least 8 characters long")
  else if !password.data.any Char.isUpper then
    (false, "Password must contain at least one uppercase letter")
  else if !password.data.any Char.isLower then
    (false, "Password must contain at least one lowercase letter")
  else if !password.data.any Char.isDigit then
    (false, "Password must contain at least one number")
  else
    (true, "Password is valid")

/-- JSON body of POST /api/auth/register; none means the key is absent. -/
structure RegisterPayload where
  email : Option String := none
  password : Option String := none
  full_name : Option String := none
  role : Option String := none
deriving DecidableEq, Repr

namespace Auth

/-- register from routes/auth.py. new_user_id stands for the uuid4 default
of the id column. Checks run in source order: required fields, email
format, password strength, full name length, role parse, then the
email-uniqueness lookup; only the success path touches the store. -/
def register (st : Store) (new_user_id : String) (data : RegisterPayload) :
    HttpReply × Store :=
  if data = ({} : RegisterPayload) then
    (⟨400, "Request body is required"⟩, st)
  else
    match data.email, data.password, data.full_name with
    | some email0, some password, some full_name0 =>
      let email := pyLower (pyStrip email0)
      let full_name := pyStrip full_name0
      let role_str := pyUpper (data.role.getD "MEMBER")
      if !validate_email email then
        (⟨400, "Invalid email format"⟩, st)
      else if (validate_password password).1 = false then
        (⟨400, (validate_password password).2⟩, st)
      else if full_name.length < 2 then
        (⟨400, "Full name must be at least 2 characters"⟩, st)
      else
        match Role.fromName role_str with
        | none => (⟨400, "Invalid role. Must be one of: ADMIN, MANAGER, MEMBER, VIEWER"⟩, st)
        | some user_role =>
          match st.users.find? (fun u => u.email == email) with
          | some _ => (⟨409, "Email already registered"⟩, st)
          | none =>
            let new_user : User :=
              { id := new_user_id, email := email, password_hash := password,
                full_name := full_name, role := user_role, is_active := true }
            (⟨201, "User registered successfully"⟩,
             { st with users := new_user :: st.users })
    | _, _, _ => (⟨400, "Missing required fields"⟩, st)

end Auth

-- ============================================================
-- DECORATORS (app/decorators.py)
-- ============================================================

/-- Outcome of an authorization decorator. -/
inductive Decision where
  | allow (member : Option ProjectMember)
  | deny (code : Nat)
deriving DecidableEq, Repr

def Decision.isAllow : Decision → Bool
  | .allow _ => true
  | .deny _ => false

/-- project_role_required from app/decorators.py: missing project id is a
400; a global ADMIN role claim bypasses the membership and role checks;
otherwise membership is required and the member role value must be in
required_roles. -/
def project_role_required_check (st : Store) (callerRole : Role)
    (required_roles : List String) (project_id user_id : String) : Decision :=
  if project_id = "" then .deny 400
  else if callerRole = Role.ADMIN then .allow none
  else
    match getUserProjectRole st project_id user_id with
    | none => .deny 403
    | some member =>
      if required_roles.contains member.role.value then .allow (some member)
      else .deny 403

-- ============================================================
-- PROJECT ROUTES (app/routes/projects.py)
-- ============================================================

/-- Pagination object echoed by the list endpoints (only the fields the
claims mention; pages and the has flags are derived from these). -/
structure Pagination where
  page : Int
  per_page : Int
  total : Nat
deriving DecidableEq, Repr

namespace Projects

/-- The member object returned by has_project_access: either the mock
AdminMember whose role is ADMIN, or a real ProjectMember row. -/
inductive AccessMember where
  | adminMock
  | member (m : ProjectMember)
deriving DecidableEq, Repr

/-- has_project_access from routes/projects.py: global admins always get
(True, AdminMember); otherwise membership is looked up and, when
required_roles is given, the member role value must be contained in it. -/
def has_project_access (st : Store) (callerRole : Role)
    (project_id user_id : String) (required_roles : Option (List String)) :
    Bool × Option AccessMember :=
  if callerRole = Role.ADMIN then
    (true, some AccessMember.adminMock)
  else
    match getUserProjectRole st project_id user_id with
    | none => (false, none)
    | some member =>
      match required_roles with
      | none => (true, some (AccessMember.member member))
      | some roles => (roles.contains member.role.value, some (AccessMember.member member))

/-- GET /api/projects, reduced to its pagination behaviour: per_page is
min(requested, 100) with default 20, computed before the query runs; the
query filters to projects the user is a member of. The status, role and
search filters only shrink the item set and are not modelled. -/
def list_projects (st : Store) (user_id : String) (page : Int)
    (per_page_req : Option Int) : Nat × Option Pagination :=
  let per_page := min (per_page_req.getD 20) 100
  let items := st.projects.filter
    (fun p => st.members.any (fun m => m.project_id == p.id && m.user_id == user_id))
  (200, some ⟨page, per_page, items.length⟩)

/-- JSON body of POST /api/projects; none means the key is absent. -/
structure ProjectPayload where
  name : Option String := none
  description : Option String := none
  start_date : Option String := none
  end_date : Option String := none
  status : Option String := none
  color : Option String := none
deriving DecidableEq, Repr

/-- create_project from routes/projects.py. new_project_id stands for the
uuid4 default. On success the new project (owner_id = caller) and the
creator ProjectMember row with role ADMIN are committed together. -/
def create_project (st : Store) (user_id new_project_id : String)
    (data : ProjectPayload) : HttpReply × Store :=
  if data = ({} : ProjectPayload) then
    (⟨400, "Request body is required"⟩, st)
  else
    let name := pyStrip (data.name.getD "")
    if name = "" then
      (⟨400, "Project name is required"⟩, st)
    else if name.length < 3 then
      (⟨400, "Project name must be at least 3 characters"⟩, st)
    else
      let description := pyStrip (data.description.getD "")
      let sds := data.start_date.getD ""
      let eds := data.end_date.getD ""
      match (if sds = "" then some none else (parseDate sds).map some) with
      | none => (⟨400, "Invalid start_date format. Use YYYY-MM-DD"⟩, st)
      | some start_date =>
        match (if eds = "" then some none else (parseDate eds).map some) with
        | none => (⟨400, "Invalid end_date format. Use YYYY-MM-DD"⟩, st)
        | some end_date =>
          if (match start_date, end_date with
              | some s, some e => decide (e.key < s.key)
              | _, _ => false) then
            (⟨400, "start_date cannot be after end_date"⟩, st)
          else
            match ProjectStatus.fromName (pyUpper (data.status.getD "ACTIVE")) with
            | none =>
              (⟨400, "Invalid status. Must be one of: PLANNING, ACTIVE, ON_HOLD, COMPLETED, ARCHIVED"⟩, st)
            | some status =>
              let new_project : Project :=
                { id := new_project_id, name := name,
                  description := if description = "" then none else some description,
                  status := status, color := data.color.getD "#3B82F6",
                  owner_id := user_id, start_date := start_date, end_date := end_date }
              let creator_member : ProjectMember :=
                { project_id := new_project_id, user_id := user_id, role := Role.ADMIN }
              (⟨201, "Project created successfully"⟩,
               { st with projects := new_project :: st.projects,
                         members := creator_member :: st.members })

/-- GET /api/projects/id from routes/projects.py, reduced to its status
code: the access check runs before the project lookup, so a denied caller
gets 403 whether or not the project exists. -/
def get_project (st : Store) (callerRole : Role) (user_id project_id : String) : Nat :=
  let access := has_project_access st callerRole project_id user_id none
  if access.1 then
    match st.projects.find? (fun p => p.id == project_id) with
    | none => 404
    | some _ => 200
  else 403

/-- DELETE /api/projects/id/members/member_user_id from routes/projects.py.
Requires project role ADMIN (or global admin); the row whose role is ADMIN
and whose user_id equals the project owner_id cannot be deleted. -/
def remove_member (st : Store) (callerRole : Role)
    (current_user_id project_id member_user_id : String) : Nat × Store :=
  let access := has_project_access st callerRole project_id current_user_id (some ["ADMIN"])
  if access.1 then
    match st.projects.find? (fun p => p.id == project_id) with
    | none => (404, st)
    | some project =>
      match getUserProjectRole st project_id member_user_id with
      | none => (404, st)
      | some member_to_remove =>
        if member_to_remove.role = Role.ADMIN ∧ project.owner_id = member_user_id then
          (400, st)
        else
          let remaining := st.members.eraseP
            (fun m => m.project_id == project_id && m.user_id == member_user_id)
          (200, { st with members := remaining })
  else (403, st)

end Projects

-- ============================================================
-- TASK MODEL METHODS (app/models/task.py)
-- ============================================================

/-- Task.mark_complete: sets status to DONE and stamps completed_at. -/
def Task.mark_complete (t : Task) (now : Nat) : Task :=
  { t with status := TaskStatus.DONE, completed_at := some now }

/-- Task.update_position: always writes position; when a different status
is supplied, writes it and stamps completed_at only when moving into
DONE. -/
def Task.update_position (t : Task) (new_position : Int)
    (new_status : Option TaskStatus) (now : Nat) : Task :=
  let t1 := { t with position := new_position }
  match new_status with
  | none => t1
  | some s =>
    if s ≠ t1.status then
      let t2 := { t1 with status := s }
      if s = TaskStatus.DONE then { t2 with completed_at := some now } else t2
    else t1

-- ============================================================
-- TASK ROUTES (app/routes/tasks.py)
-- ============================================================

namespace Tasks

/-- has_project_access from routes/tasks.py: global admin or any
ProjectMember row. -/
def has_project_access (st : Store) (callerRole : Role)
    (project_id user_id : String) : Bool :=
  if callerRole = Role.ADMIN then true
  else (getUserProjectRole st project_id user_id).isSome

/-- can_modify_task from routes/tasks.py: global admin, task reporter, or
a project member whose role value is ADMIN or MANAGER. -/
def can_modify_task (st : Store) (callerRole : Role) (task : Task)
    (user_id : String) : Bool :=
  if callerRole = Role.ADMIN then true
  else if task.reporter_id = user_id then true
  else
    match getUserProjectRole st task.project_id user_id with
    | some member => ["ADMIN", "MANAGER"].contains member.role.value
    | none => false

/-- GET /api/tasks, reduced to its guards and pagination: per_page is
min(requested, 100) with default 20; non-admins must supply project_id;
project access is checked when project_id is given. The status, priority,
assignee, creator, search and due-date filters only shrink the item set
and are not modelled. -/
def list_tasks (st : Store) (callerRole : Role) (user_id : String)
    (project_id : Option String) (page : Int) (per_page_req : Option Int) :
    Nat × Option Pagination :=
  let per_page := min (per_page_req.getD 20) 100
  match project_id with
  | none =>
    if callerRole ≠ Role.ADMIN then (400, none)
    else
      let items := st.tasks.filter
        (fun t => st.members.any (fun m => m.project_id == t.project_id && m.user_id == user_id))
      (200, some ⟨page, per_page, items.length⟩)
  | some pid =>
    if ¬ has_project_access st callerRole pid user_id then (403, none)
    else
      let items := st.tasks.filter (fun t => t.project_id == pid)
      (200, some ⟨page, per_page, items.length⟩)

/-- JSON body of POST /api/tasks; none means the key is absent. -/
structure TaskCreatePayload where
  project_id : Option String := none
  title : Option String := none
  description : Option String := none
  status : Option String := none
  priority : Option String := none
  assigned_to_id : Option String := none
  due_date : Option String := none
  tags : Option (List String) := none
deriving DecidableEq, Repr

/-- create_task from routes/tasks.py. new_task_id stands for the uuid4
default. Checks run in source order; the Task row is created with
position 0, no completion timestamp, and reporter_id set to the caller.
A falsy assigned_to_id (absent, null or empty) leaves the task
unassigned. -/
def create_task (st : Store) (callerRole : Role) (user_id new_task_id : String)
    (data : TaskCreatePayload) : Except HttpReply Task :=
  if data = ({} : TaskCreatePayload) then
    .error ⟨400, "Request body is required"⟩
  else
    let project_id := pyStrip (data.project_id.getD "")
    if project_id = "" then .error ⟨400, "project_id is required"⟩
    else
      match st.projects.find? (fun p => p.id == project_id) with
      | none => .error ⟨404, "Project not found"⟩
      | some _ =>
        if ¬ has_project_access st callerRole project_id user_id then
          .error ⟨403, "You do not have access to this project"⟩
        else
          let title := pyStrip (data.title.getD "")
          if title = "" then .error ⟨400, "Task title is required"⟩
          else if title.length < 3 then
            .error ⟨400, "Task title must be at least 3 characters"⟩
          else
            let description := pyStrip (data.description.getD "")
            match TaskStatus.fromName (pyUpper (data.status.getD "TODO")) with
            | none =>
              .error ⟨400, "Invalid status. Must be one of: TODO, IN_PROGRESS, IN_REVIEW, DONE, ARCHIVED"⟩
            | some status =>
              match TaskPriority.fromName (pyUpper (data.priority.getD "MEDIUM")) with
              | none =>
                .error ⟨400, "Invalid priority. Must be one of: LOW, MEDIUM, HIGH, URGENT"⟩
              | some priority =>
                let assigned_to_id := data.assigned_to_id.getD ""
                if assigned_to_id ≠ "" ∧ ¬ st.users.any (fun u => u.id == assigned_to_id) then
                  .error ⟨404, "Assigned user not found"⟩
                else if assigned_to_id ≠ "" ∧
                    ¬ has_project_access st callerRole project_id assigned_to_id then
                  .error ⟨400, "Assigned user is not a project member"⟩
                else
                  let dds := data.due_date.getD ""
                  match (if dds = "" then some none else (parseDate dds).map some) with
                  | none => .error ⟨400, "Invalid due_date format. Use YYYY-MM-DD"⟩
                  | some due_date =>
                    .ok { id := new_task_id, title := title,
                          description := if description = "" then none else some description,
                          status := status, priority := priority,
                          project_id := project_id,
                          assignee_id := if assigned_to_id = "" then none else some assigned_to_id,
                          reporter_id := user_id, position := 0,
                          due_date := due_date, completed_at := none,
                          tags := data.tags.getD [] }

/-- JSON body of PUT /api/tasks/id. The outer Option is key presence; for
assigned_to_id and due_date the inner Option is an explicit null. -/
structure TaskUpdatePayload where
  title : Option String := none
  description : Option String := none
  status : Option String := none
  priority : Option String := none
  assigned_to_id : Option (Option String) := none
  due_date : Option (Option String) := none
  tags : Option (List String) := none
deriving DecidableEq, Repr

/-- The title branch of update_task. -/
def upd_title (t : Task) (d : TaskUpdatePayload) : Except HttpReply Task :=
  match d.title with
  | none => .ok t
  | some s =>
    let title := pyStrip s
    if title.length < 3 then .error ⟨400, "Task title must be at least 3 characters"⟩
    else .ok { t with title := title }

/-- The description branch of update_task: stripped, empty becomes null. -/
def upd_description (t : Task) (d : TaskUpdatePayload) : Except HttpReply Task :=
  match d.description with
  | none => .ok t
  | some s =>
    let v := pyStrip s
    .ok { t with description := if v = "" then none else some v }

/-- The status branch of update_task: only the status column is written;
completed_at is not touched. -/
def upd_status (t : Task) (d : TaskUpdatePayload) : Except HttpReply Task :=
  match d.status with
  | none => .ok t
  | some s =>
    match TaskStatus.fromName (pyUpper s) with
    | none =>
      .error ⟨400, "Invalid status. Must be one of: TODO, IN_PROGRESS, IN_REVIEW, DONE, ARCHIVED"⟩
    | some v => .ok { t with status := v }

/-- The priority branch of update_task. -/
def upd_priority (t : Task) (d : TaskUpdatePayload) : Except HttpReply Task :=
  match d.priority with
  | none => .ok t
  | some s =>
    match TaskPriority.fromName (pyUpper s) with
    | none => .error ⟨400, "Invalid priority. Must be one of: LOW, MEDIUM, HIGH, URGENT"⟩
    | some v => .ok { t with priority := v }

/-- The assignee branch of update_task: a falsy value (null or empty)
clears the assignee; otherwise the user must exist and be a project
member (the access check sees the caller role claim). -/
def upd_assignee (st : Store) (callerRole : Role) (t : Task)
    (d : TaskUpdatePayload) : Except HttpReply Task :=
  match d.assigned_to_id with
  | none => .ok t
  | some v =>
    let aid := v.getD ""
    if aid = "" then .ok { t with assignee_id := none }
    else if ¬ st.users.any (fun u => u.id == aid) then
      .error ⟨404, "Assigned user not found"⟩
    else if ¬ has_project_access st callerRole t.project_id aid then
      .error ⟨400, "Assigned user is not a project member"⟩
    else .ok { t with assignee_id := some aid }

/-- The due_date branch of update_task: falsy clears, otherwise parse. -/
def upd_due_date (t : Task) (d : TaskUpdatePayload) : Except HttpReply Task :=
  match d.due_date with
  | none => .ok t
  | some v =>
    let dds := v.getD ""
    if dds = "" then .ok { t with due_date := none }
    else
      match parseDate dds with
      | none => .error ⟨400, "Invalid due_date format. Use YYYY-MM-DD"⟩
      | some dt => .ok { t with due_date := some dt }

/-- The tags branch of update_task. -/
def upd_tags (t : Task) (d : TaskUpdatePayload) : Except HttpReply Task :=
  match d.tags with
  | none => .ok t
  | some l => .ok { t with tags := l }

/-- update_task (PUT /api/tasks/id) from routes/tasks.py: permission via
can_modify_task, then the field branches in source order; an error in any
branch aborts and the transaction is never committed, so the task row is
unchanged. No branch writes completed_at. -/
def update_task (st : Store) (callerRole : Role) (user_id : String)
    (task : Task) (data : TaskUpdatePayload) : Except HttpReply Task :=
  if ¬ can_modify_task st callerRole task user_id then
    .error ⟨403, "You do not have permission to update this task"⟩
  else if data = ({} : TaskUpdatePayload) then
    .error ⟨400, "Request body is required"⟩
  else do
    let t1 ← upd_title task data
    let t2 ← upd_description t1 data
    let t3 ← upd_status t2 data
    let t4 ← upd_priority t3 data
    let t5 ← upd_assignee st callerRole t4 data
    let t6 ← upd_due_date t5 data
    upd_tags t6 data

end Tasks

-- ============================================================
-- TASK OPERATION TRACES (for the completed_at invariant)
-- ============================================================

/-- One mutation applied to a task row after its creation: a PUT update
request (with its store and caller context), Task.mark_complete, or
Task.update_position. -/
inductive TaskOp where
  | update (st : Store) (callerRole : Role) (user_id : String) (data : Tasks.TaskUpdatePayload)
  | mark_complete (now : Nat)
  | update_position (new_position : Int) (new_status : Option TaskStatus) (now : Nat)

/-- Apply one operation; a rejected update request leaves the row as it
was (the transaction is only committed on success). -/
def applyOp (t : Task) : TaskOp → Task
  | .update st cr uid d =>
    match Tasks.update_task st cr uid t d with
    | .ok t2 => t2
    | .error _ => t
  | .mark_complete now => t.mark_complete now
  | .update_position p s now => t.update_position p s now

/-- Apply a sequence of operations in order. -/
def applyOps (t : Task) : List TaskOp → Task
  | [] => t
  | op :: ops => applyOps (applyOp t op) ops

/-- Whether an operation stamps completed_at when applied to t: only
mark_complete, and update_position moving the status into DONE, do. -/
def stampsNow (t : Task) : TaskOp → Bool
  | .mark_complete _ => true
  | .update_position _ (some s) _ => decide (s ≠ t.status ∧ s = TaskStatus.DONE)
  | _ => false

/-- Whether some operation along the trace stamps completed_at. -/
def everStamps (t : Task) : List TaskOp → Bool
  | [] => false
  | op :: ops => stampsNow t op || everStamps (applyOp t op) ops

-- ============================================================
-- USER ROUTES (app/routes/users.py)
-- ============================================================

namespace Users

/-- GET /api/users, reduced to its guard and pagination: admin only;
per_page is min(requested, 100) with default 20. The role, is_active and
search filters only shrink the item set and are not modelled. -/
def list_users (st : Store) (callerRole : Role) (page : Int)
    (per_page_req : Option Int) : Nat × Option Pagination :=
  if callerRole ≠ Role.ADMIN then (403, none)
  else
    let per_page := min (per_page_req.getD 20) 100
    (200, some ⟨page, per_page, st.users.length⟩)

end Users

-- ============================================================
-- CONCRETE FIXTURES (used by witnesses and counterexamples)
-- ============================================================

/-- The empty store. -/
def emptyStore : Store := ⟨[], [], [], []⟩

/-- A project owned by user u1. -/
def projP1 : Project :=
  { id := "p1", name := "Alpha", description := none, status := .ACTIVE,
    color := "#3B82F6", owner_id := "u1", start_date := none, end_date := none }

/-- A store with one project whose owner u1 is its ADMIN member. -/
def storeS1 : Store :=
  ⟨[], [projP1], [⟨"p1", "u1", Role.ADMIN⟩], []⟩

/-- A task in project p1 reported by u1. -/
def taskT1 : Task :=
  { id := "t1", title := "Fix login", description := none, status := .TODO,
    priority := .MEDIUM, project_id := "p1", assignee_id := none,
    reporter_id := "u1", position := 0, due_date := none,
    completed_at := none, tags := [] }

-- ============================================================
-- C1 .. C10
-- ============================================================

/-- C1: for every project-scoped authorization check used by the project
and task endpoints (has_project_access in routes/projects.py with and
without required_roles, has_project_access in routes/tasks.py,
can_modify_task, and the project_role_required decorator), a caller whose
global role claim is ADMIN is allowed, whatever the membership table
contains. -/
theorem global_admin_always_allowed (st : Store) (project_id user_id : String)
    (required_roles : List String) (t : Task) (hpid : project_id ≠ "") :
    (Projects.has_project_access st Role.ADMIN project_id user_id none).1 = true ∧
    (Projects.has_project_access st Role.ADMIN project_id user_id (some required_roles)).1 = true ∧
    Tasks.has_project_access st Role.ADMIN project_id user_id = true ∧
    Tasks.can_modify_task st Role.ADMIN t user_id = true ∧
    (project_role_required_check st Role.ADMIN required_roles project_id user_id).isAllow = true := by
  refine ⟨by simp [Projects.has_project_access], by simp [Projects.has_project_access],
    by simp [Tasks.has_project_access], by simp [Tasks.can_modify_task], ?_⟩
  simp [project_role_required_check, hpid, Decision.isAllow]

/-- Witness for C1 at a concrete empty membership table. -/
theorem global_admin_always_allowed_witness :
    ("p1" : String) ≠ "" ∧
    ((Projects.has_project_access emptyStore Role.ADMIN "p1" "u9" none).1 = true ∧
     (Projects.has_project_access emptyStore Role.ADMIN "p1" "u9" (some ["ADMIN"])).1 = true ∧
     Tasks.has_project_access emptyStore Role.ADMIN "p1" "u9" = true ∧
     Tasks.can_modify_task emptyStore Role.ADMIN taskT1 "u9" = true ∧
     (project_role_required_check emptyStore Role.ADMIN ["ADMIN"] "p1" "u9").isAllow = true) :=
  ⟨by decide, global_admin_always_allowed emptyStore "p1" "u9" ["ADMIN"] taskT1 (by decide)⟩

/-- C2: the modify-task authorization used by PUT and DELETE on
/api/tasks/id allows any non-admin caller whose id equals the task
reporter_id, whatever the membership table contains. -/
theorem task_reporter_can_modify (st : Store) (callerRole : Role) (t : Task)
    (user_id : String) (hrole : callerRole ≠ Role.ADMIN)
    (hrep : t.reporter_id = user_id) :
    Tasks.can_modify_task st callerRole t user_id = true := by
  simp [Tasks.can_modify_task, hrole, hrep]

/-- Witness for C2: reporter u1 with no ProjectMember record at all. -/
theorem task_reporter_can_modify_witness :
    Role.MEMBER ≠ Role.ADMIN ∧ taskT1.reporter_id = "u1" ∧
    Tasks.can_modify_task emptyStore Role.MEMBER taskT1 "u1" = true :=
  ⟨by decide, rfl, task_reporter_can_modify emptyStore Role.MEMBER taskT1 "u1" (by decide) rfl⟩

/-- C7: validate_password accepts exactly the passwords satisfying all
four strength rules, and on rejection reports the first violated rule in
the order length, uppercase, lowercase, digit; register answers 400 with
exactly that message when the password is invalid (and leaves the store
unchanged). -/
theorem validate_password_first_violation (p : String) :
    ((validate_password p).1 = true ↔
      (¬ p.length < 8 ∧ p.data.any Char.isUpper = true ∧ p.data.any Char.isLower = true ∧
        p.data.any Char.isDigit = true)) ∧
    (p.length < 8 →
      validate_password p = (false, "Password must be at least 8 characters long")) ∧
    (¬ p.length < 8 → p.data.any Char.isUpper = false →
      validate_password p = (false, "Password must contain at least one uppercase letter")) ∧
    (¬ p.length < 8 → p.data.any Char.isUpper = true → p.data.any Char.isLower = false →
      validate_password p = (false, "Password must contain at least one lowercase letter")) ∧
    (¬ p.length < 8 → p.data.any Char.isUpper = true → p.data.any Char.isLower = true →
      p.data.any Char.isDigit = false →
      validate_password p = (false, "Password must contain at least one number")) ∧
    (∀ (st : Store) (nid : String) (data : RegisterPayload) (e nm : String),
      data.email = some e → data.password = some p → data.full_name = some nm →
      validate_email (pyLower (pyStrip e)) = true →
      (validate_password p).1 = false →
      Auth.register st nid data = (⟨400, (validate_password p).2⟩, st)) := by
  refine ⟨?_, ?_, ?_, ?_, ?_, ?_⟩
  · unfold validate_password; split_ifs <;> simp_all
  · intro h; unfold validate_password; simp [h]
  · intro h1 h2; unfold validate_password; simp [h1, h2]
  · intro h1 h2 h3; unfold validate_password; simp [h1, h2, h3]
  · intro h1 h2 h3 h4; unfold validate_password; simp [h1, h2, h3, h4]
  · intro st nid data e nm hem hpw hnm hve hbad
    have hne : data ≠ ({} : RegisterPayload) := by
      intro hD; rw [hD] at hem; simp at hem
    unfold Auth.register
    rw [if_neg hne]
    simp only [hem, hpw, hnm]
    rw [if_neg (by simp [hve])]
    rw [if_pos hbad]

/-- Witness for C7 at concrete passwords: a short one is rejected with
the length message; one satisfying all four rules is accepted. -/
theorem validate_password_first_violation_witness :
    ("abc" : String).length < 8 ∧
    validate_password "abc" = (false, "Password must be at least 8 characters long") ∧
    (validate_password "Passw0rd").1 = true :=
  ⟨by decide, (validate_password_first_violation "abc").2.1 (by decide),
    ((validate_password_first_violation "Passw0rd").1).mpr (by decide)⟩

/-- C8: the three list endpoints use and echo per_page = min(requested,
100); in particular a request with per_page = 150 is served with 100. -/
theorem list_endpoints_clamp_per_page (st : Store) (callerRole : Role)
    (user_id : String) (project_id : Option String) (page r : Int) (pg : Pagination) :
    ((Projects.list_projects st user_id page (some r)).2.map Pagination.per_page
        = some (min r 100)) ∧
    ((Tasks.list_tasks st callerRole user_id project_id page (some r)).2 = some pg →
        pg.per_page = min r 100) ∧
    ((Users.list_users st callerRole page (some r)).2 = some pg →
        pg.per_page = min r 100) ∧
    ((Projects.list_projects st user_id page (some 150)).2.map Pagination.per_page
        = some 100) := by
  refine ⟨by simp [Projects.list_projects], ?_, ?_, ?_⟩
  · intro h
    unfold Tasks.list_tasks at h
    cases project_id with
    | none =>
      by_cases hr : callerRole = Role.ADMIN
      · simp [hr] at h
        subst h
        rfl
      · simp [hr] at h
    | some pid =>
      by_cases ha : Tasks.has_project_access st callerRole pid user_id = true
      · simp [ha] at h
        subst h
        rfl
      · simp [ha] at h
  · intro h
    unfold Users.list_users at h
    by_cases hr : callerRole = Role.ADMIN
    · simp [hr] at h
      subst h
      rfl
    · simp [hr] at h
  · simp only [Projects.list_projects, Option.map_some]
    norm_num

/-- Witness for C8 with concrete arguments and per_page = 150. -/
theorem list_endpoints_clamp_per_page_witness :
    (Tasks.list_tasks emptyStore Role.ADMIN "u1" none 1 (some 150)).2
        = some ⟨1, 100, 0⟩ ∧
    (⟨1, 100, 0⟩ : Pagination).per_page = min 150 100 :=
  ⟨by decide,
    (list_endpoints_clamp_per_page emptyStore Role.ADMIN "u1" none 1 150 ⟨1, 100, 0⟩).2.1
      (by decide)⟩

/-- C10: GET /api/projects/id runs the membership check before the
existence lookup. A non-admin caller with no ProjectMember row for the
requested id receives 403 whether or not the project exists; under
referential integrity of the membership table, 404 is only reachable for
global admins. -/
theorem get_project_membership_checked_before_existence (st : Store)
    (callerRole : Role) (user_id project_id : String) :
    (callerRole ≠ Role.ADMIN → getUserProjectRole st project_id user_id = none →
      Projects.get_project st callerRole user_id project_id = 403) ∧
    ((∀ m ∈ st.members, ∃ p ∈ st.projects, p.id = m.project_id) →
      Projects.get_project st callerRole user_id project_id = 404 →
      callerRole = Role.ADMIN) := by
  constructor
  · intro hrole hmem
    simp [Projects.get_project, Projects.has_project_access, hrole, hmem]
  · intro hfk h404
    by_contra hne
    unfold Projects.get_project Projects.has_project_access at h404
    rw [if_neg hne] at h404
    cases hmem : getUserProjectRole st project_id user_id with
    | none => rw [hmem] at h404; simp at h404
    | some m =>
      rw [hmem] at h404
      simp only [ite_true] at h404
      have hm : m ∈ st.members ∧ (m.project_id == project_id && m.user_id == user_id) = true := by
        unfold getUserProjectRole at hmem
        have h1 := List.mem_of_find?_eq_some hmem
        have h2 := List.find?_some hmem
        exact ⟨h1, h2⟩
      have hpid : m.project_id = project_id := by
        have := hm.2
        simp only [Bool.and_eq_true, beq_iff_eq] at this
        exact this.1
      obtain ⟨p, hp, hpeq⟩ := hfk m hm.1
      have hfound : (st.projects.find? (fun q => q.id == project_id)).isSome := by
        rw [List.find?_isSome]
        exact ⟨p, hp, by simp [hpeq, hpid]⟩
      cases hfind : st.projects.find? (fun q => q.id == project_id) with
      | none => rw [hfind] at hfound; simp at hfound
      | some q => rw [hfind] at h404; simp at h404

/-- Witness for C10: a non-member caller on a nonexistent project id gets
403, not 404. -/
theorem get_project_membership_checked_before_existence_witness :
    Role.MEMBER ≠ Role.ADMIN ∧
    getUserProjectRole emptyStore "ghost" "u1" = none ∧
    Projects.get_project emptyStore Role.MEMBER "u1" "ghost" = 403 :=
  ⟨by decide, rfl,
    (get_project_membership_checked_before_existence emptyStore Role.MEMBER "u1" "ghost").1
      (by decide) rfl⟩

/-- C3: removing the member row whose role is ADMIN and whose user_id is
the project owner always fails (403 before the checks, 404 without the
row, 400 at the owner guard) and never changes the store. -/
theorem owner_membership_cannot_be_removed (st : Store) (callerRole : Role)
    (current_user_id project_id : String) (project : Project) (m : ProjectMember)
    (hproj : st.projects.find? (fun p => p.id == project_id) = some project)
    (hmem : getUserProjectRole st project_id project.owner_id = some m)
    (hrole : m.role = Role.ADMIN) :
    (Projects.remove_member st callerRole current_user_id project_id project.owner_id).1 ≠ 200 ∧
    (Projects.remove_member st callerRole current_user_id project_id project.owner_id).2 = st := by
  simp only [Projects.remove_member]
  rw [hproj, hmem]
  by_cases hacc :
      (Projects.has_project_access st callerRole project_id current_user_id (some ["ADMIN"])).1 = true
  · constructor
    · simp [hacc, hrole]
    · simp [hacc, hrole]
  · constructor
    · simp [hacc]
    · simp [hacc]

/-- Witness for C3 at a one-project store whose owner is its ADMIN member. -/
theorem owner_membership_cannot_be_removed_witness :
    storeS1.projects.find? (fun p => p.id == "p1") = some projP1 ∧
    getUserProjectRole storeS1 "p1" projP1.owner_id = some ⟨"p1", "u1", Role.ADMIN⟩ ∧
    (⟨"p1", "u1", Role.ADMIN⟩ : ProjectMember).role = Role.ADMIN ∧
    ((Projects.remove_member storeS1 Role.MEMBER "u1" "p1" projP1.owner_id).1 ≠ 200 ∧
     (Projects.remove_member storeS1 Role.MEMBER "u1" "p1" projP1.owner_id).2 = storeS1) :=
  ⟨rfl, rfl, rfl,
    owner_membership_cannot_be_removed storeS1 Role.MEMBER "u1" "p1" projP1
      ⟨"p1", "u1", Role.ADMIN⟩ rfl rfl rfl⟩

-- ============================================================
-- completed_at lemmas (C4, C5)
-- ============================================================

/-- Destructuring a successful Except bind. -/
theorem exceptBindOk {ε α β : Type} {x : Except ε α} {f : α → Except ε β} {b : β}
    (h : x >>= f = .ok b) : ∃ a, x = .ok a ∧ f a = .ok b := by
  cases x with
  | ok a => exact ⟨a, rfl, h⟩
  | error e => exact Except.noConfusion h

theorem upd_title_completed_at {t t2 : Task} {d : Tasks.TaskUpdatePayload}
    (h : Tasks.upd_title t d = .ok t2) : t2.completed_at = t.completed_at := by
  unfold Tasks.upd_title at h
  repeat' first
    | (dsimp only at h)
    | (split at h)
  all_goals first
    | exact Except.noConfusion h
    | rw [← Except.ok.inj h]

theorem upd_description_completed_at {t t2 : Task} {d : Tasks.TaskUpdatePayload}
    (h : Tasks.upd_description t d = .ok t2) : t2.completed_at = t.completed_at := by
  unfold Tasks.upd_description at h
  repeat' first
    | (dsimp only at h)
    | (split at h)
  all_goals first
    | exact Except.noConfusion h
    | rw [← Except.ok.inj h]

theorem upd_status_completed_at {t t2 : Task} {d : Tasks.TaskUpdatePayload}
    (h : Tasks.upd_status t d = .ok t2) : t2.completed_at = t.completed_at := by
  unfold Tasks.upd_status at h
  repeat' first
    | (dsimp only at h)
    | (split at h)
  all_goals first
    | exact Except.noConfusion h
    | rw [← Except.ok.inj h]

theorem upd_priority_completed_at {t t2 : Task} {d : Tasks.TaskUpdatePayload}
    (h : Tasks.upd_priority t d = .ok t2) : t2.completed_at = t.completed_at := by
  unfold Tasks.upd_priority at h
  repeat' first
    | (dsimp only at h)
    | (split at h)
  all_goals first
    | exact Except.noConfusion h
    | rw [← Except.ok.inj h]

theorem upd_assignee_completed_at {st : Store} {cr : Role} {t t2 : Task}
    {d : Tasks.TaskUpdatePayload}
    (h : Tasks.upd_assignee st cr t d = .ok t2) : t2.completed_at = t.completed_at := by
  unfold Tasks.upd_assignee at h
  repeat' first
    | (dsimp only at h)
    | (split at h)
  all_goals first
    | exact Except.noConfusion h
    | rw [← Except.ok.inj h]

theorem upd_due_date_completed_at {t t2 : Task} {d : Tasks.TaskUpdatePayload}
    (h : Tasks.upd_due_date t d = .ok t2) : t2.completed_at = t.completed_at := by
  unfold Tasks.upd_due_date at h
  repeat' first
    | (dsimp only at h)
    | (split at h)
  all_goals first
    | exact Except.noConfusion h
    | rw [← Except.ok.inj h]

theorem upd_tags_completed_at {t t2 : Task} {d : Tasks.TaskUpdatePayload}
    (h : Tasks.upd_tags t d = .ok t2) : t2.completed_at = t.completed_at := by
  unfold Tasks.upd_tags at h
  repeat' first
    | (dsimp only at h)
    | (split at h)
  all_goals first
    | exact Except.noConfusion h
    | rw [← Except.ok.inj h]

/-- A successful PUT update never changes completed_at: no branch of
update_task writes it. -/
theorem update_task_completed_at {st : Store} {cr : Role} {uid : String}
    {t t2 : Task} {d : Tasks.TaskUpdatePayload}
    (h : Tasks.update_task st cr uid t d = .ok t2) :
    t2.completed_at = t.completed_at := by
  unfold Tasks.update_task at h
  split at h
  · exact Except.noConfusion h
  · split at h
    · exact Except.noConfusion h
    · obtain ⟨a1, h1, h⟩ := exceptBindOk h
      obtain ⟨a2, h2, h⟩ := exceptBindOk h
      obtain ⟨a3, h3, h⟩ := exceptBindOk h
      obtain ⟨a4, h4, h⟩ := exceptBindOk h
      obtain ⟨a5, h5, h⟩ := exceptBindOk h
      obtain ⟨a6, h6, h⟩ := exceptBindOk h
      calc t2.completed_at
          = a6.completed_at := upd_tags_completed_at h
        _ = a5.completed_at := upd_due_date_completed_at h6
        _ = a4.completed_at := upd_assignee_completed_at h5
        _ = a3.completed_at := upd_priority_completed_at h4
        _ = a2.completed_at := upd_status_completed_at h3
        _ = a1.completed_at := upd_description_completed_at h2
        _ = t.completed_at := upd_title_completed_at h1

/-- One step of the trace: completed_at is non-null afterwards iff it was
before or the step stamps it. -/
theorem applyOp_completed_at (t : Task) (op : TaskOp) :
    ((applyOp t op).completed_at).isSome = (t.completed_at.isSome || stampsNow t op) := by
  cases op with
  | update st cr uid d =>
    simp only [applyOp, stampsNow]
    cases h : Tasks.update_task st cr uid t d with
    | ok t2 => simp [update_task_completed_at h]
    | error e => simp
  | mark_complete now => simp [applyOp, stampsNow, Task.mark_complete]
  | update_position p s now =>
    cases s with
    | none => simp [applyOp, stampsNow, Task.update_position]
    | some v =>
      by_cases hv : v = t.status
      · simp [applyOp, stampsNow, Task.update_position, hv]
      · by_cases hd : v = TaskStatus.DONE
        · subst hd
          simp [applyOp, stampsNow, Task.update_position, hv]
        · simp [applyOp, stampsNow, Task.update_position, hv, hd]

/-- Along any trace: completed_at is non-null at the end iff it was at the
start or some operation stamped it. -/
theorem applyOps_completed_at (ops : List TaskOp) (t : Task) :
    ((applyOps t ops).completed_at).isSome = (t.completed_at.isSome || everStamps t ops) := by
  induction ops generalizing t with
  | nil => simp [applyOps, everStamps]
  | cons op ops ih =>
    simp only [applyOps, everStamps]
    rw [ih, applyOp_completed_at, Bool.or_assoc]

/-- A task created through POST /api/tasks starts with no completion
timestamp, whatever status the payload requests. -/
theorem create_task_completed_at {st : Store} {cr : Role} {uid nid : String}
    {d : Tasks.TaskCreatePayload} {t : Task}
    (h : Tasks.create_task st cr uid nid d = .ok t) : t.completed_at = none := by
  unfold Tasks.create_task at h
  repeat' first
    | (dsimp only at h)
    | (split at h)
  all_goals first
    | exact Except.noConfusion h
    | rw [← Except.ok.inj h]

/-- Payload creating a task directly in status DONE. -/
def donePayload : Tasks.TaskCreatePayload :=
  { project_id := some "p1", title := some "Ship the release", status := some "DONE" }

/-- C4 counterexample: POST /api/tasks accepts status DONE and stores the
task with status DONE and a null completed_at, so the claimed iff between
a non-null completed_at and status DONE fails in a reachable state. -/
theorem task_created_done_has_null_completed_at :
    (Tasks.create_task storeS1 Role.MEMBER "u1" "t9" donePayload).toOption.map
        (fun t => (t.status, t.completed_at)) =
      some (TaskStatus.DONE, (none : Option Nat)) := rfl

/-- C4 amended: in every reachable state, completed_at is non-null iff
some applied operation stamped it, i.e. a mark_complete or an
update_position that moved the status into DONE; creation and the PUT
update route never write completed_at, so the timestamp does not track
status = DONE. -/
theorem completed_at_iff_some_op_stamped (st : Store) (callerRole : Role)
    (user_id new_task_id : String) (data : Tasks.TaskCreatePayload) (t0 : Task)
    (ops : List TaskOp)
    (hcreate : Tasks.create_task st callerRole user_id new_task_id data = .ok t0) :
    ((applyOps t0 ops).completed_at ≠ none ↔ everStamps t0 ops = true) := by
  have h0 : t0.completed_at = none := create_task_completed_at hcreate
  rw [Option.ne_none_iff_isSome, applyOps_completed_at, h0]
  simp

/-- Payload creating an ordinary TODO task. -/
def c4wPayload : Tasks.TaskCreatePayload :=
  { project_id := some "p1", title := some "Write docs" }

/-- The task c4wPayload creates. -/
def c4wTask : Task :=
  { id := "t2", title := "Write docs", description := none, status := .TODO,
    priority := .MEDIUM, project_id := "p1", assignee_id := none,
    reporter_id := "u1", position := 0, due_date := none,
    completed_at := none, tags := [] }

/-- Witness for the amended C4 on a concrete creation and a one-step
trace that stamps the timestamp. -/
theorem completed_at_iff_some_op_stamped_witness :
    Tasks.create_task storeS1 Role.MEMBER "u1" "t2" c4wPayload = .ok c4wTask ∧
    ((applyOps c4wTask [TaskOp.mark_complete 5]).completed_at ≠ none ↔
      everStamps c4wTask [TaskOp.mark_complete 5] = true) :=
  ⟨rfl, completed_at_iff_some_op_stamped storeS1 Role.MEMBER "u1" "t2" c4wPayload
    c4wTask [TaskOp.mark_complete 5] rfl⟩

/-- taskT1 after it has been marked complete at time 5. -/
def doneTaskT1 : Task := { taskT1 with status := .DONE, completed_at := some 5 }

/-- C5: evaluating PUT /api/tasks/id at the failing input. Setting status
to DONE by update leaves completed_at null (the route never writes it,
against the column doc that it is auto-set when status changes to DONE);
setting status back to TODO leaves an existing stamp unchanged. -/
theorem update_status_never_stamps_completed_at :
    ((Tasks.update_task storeS1 Role.MEMBER "u1" taskT1 { status := some "DONE" }).toOption.map
        (fun t => (t.status, t.completed_at)) =
      some (TaskStatus.DONE, (none : Option Nat))) ∧
    ((Tasks.update_task storeS1 Role.MEMBER "u1" doneTaskT1 { status := some "TODO" }).toOption.map
        (fun t => (t.status, t.completed_at)) =
      some (TaskStatus.TODO, (some 5 : Option Nat))) :=
  ⟨rfl, rfl⟩

-- ============================================================
-- register (C6) and create_project (C9)
-- ============================================================

/-- A valid registration payload for alice. -/
def alicePayload : RegisterPayload :=
  { email := some "alice@example.com", password := some "Password1",
    full_name := some "Alice A" }

/-- The same email with a password failing the strength policy. -/
def aliceWeakPayload : RegisterPayload :=
  { email := some "alice@example.com", password := some "weak",
    full_name := some "Alice A" }

/-- The store after alice registered. -/
def aliceStore : Store := (Auth.register emptyStore "u1" alicePayload).2

/-- C6 counterexample: after a successful registration, a second request
with the same email but an invalid password is answered 400 (validation
runs before the uniqueness check), not 409 CONFLICT. -/
theorem second_register_same_email_can_return_400 :
    (Auth.register emptyStore "u1" alicePayload).1.status = 201 ∧
    (∃ u ∈ aliceStore.users, u.email = "alice@example.com") ∧
    (Auth.register aliceStore "u2" aliceWeakPayload).1.status = 400 :=
  ⟨rfl, by decide, rfl⟩

/-- C6 amended: when a user with the normalized email already exists, no
register request with that email ever creates a user (the store is
returned unchanged), and a second request that passes the field
validations (email format, password strength, name length, role) is
answered 409 CONFLICT. -/
theorem register_conflict_for_existing_email (st : Store) (new_user_id : String)
    (data : RegisterPayload) (e : String)
    (hem : data.email = some e)
    (hex : ∃ u ∈ st.users, u.email = pyLower (pyStrip e)) :
    (Auth.register st new_user_id data).2 = st ∧
    (∀ pw nm, data.password = some pw → data.full_name = some nm →
      validate_email (pyLower (pyStrip e)) = true →
      (validate_password pw).1 = true →
      ¬ (pyStrip nm).length < 2 →
      (Role.fromName (pyUpper (data.role.getD "MEMBER"))).isSome = true →
      (Auth.register st new_user_id data).1.status = 409) := by
  obtain ⟨u, hu, hue⟩ := hex
  have hfind : (st.users.find? (fun x => x.email == pyLower (pyStrip e))).isSome = true := by
    rw [List.find?_isSome]
    exact ⟨u, hu, by simp [hue]⟩
  have hne : data ≠ ({} : RegisterPayload) := by
    intro hD
    rw [hD] at hem
    exact Option.noConfusion hem
  constructor
  · unfold Auth.register
    rw [if_neg hne]
    cases hpw : data.password with
    | none =>
      cases hnm : data.full_name with
      | none => simp [hem, hpw, hnm]
      | some nm => simp [hem, hpw, hnm]
    | some pw =>
      cases hnm : data.full_name with
      | none => simp [hem, hpw, hnm]
      | some nm =>
        simp only [hem, hpw, hnm]
        split_ifs <;> try rfl
        cases hr2 : Role.fromName (pyUpper (data.role.getD "MEMBER")) with
        | none => simp [hr2]
        | some ur =>
          cases hf : st.users.find? (fun x => x.email == pyLower (pyStrip e)) with
          | none => rw [hf] at hfind; simp at hfind
          | some u2 => simp [hr2, hf]
  · intro pw nm hpw hnm hve hvp hnm2 hrole
    obtain ⟨ur, hur⟩ := Option.isSome_iff_exists.mp hrole
    cases hf : st.users.find? (fun x => x.email == pyLower (pyStrip e)) with
    | none => rw [hf] at hfind; simp at hfind
    | some u2 =>
      simp [Auth.register, hne, hem, hpw, hnm, hve, hvp, hnm2, hur, hf]

/-- Witness for the amended C6: a second valid request for the alice email
is answered 409 and the store is unchanged. -/
theorem register_conflict_for_existing_email_witness :
    alicePayload.email = some "alice@example.com" ∧
    (∃ u ∈ aliceStore.users, u.email = pyLower (pyStrip "alice@example.com")) ∧
    (Auth.register aliceStore "u3" alicePayload).2 = aliceStore ∧
    (Auth.register aliceStore "u3" alicePayload).1.status = 409 :=
  ⟨rfl, by decide,
    (register_conflict_for_existing_email aliceStore "u3" alicePayload
      "alice@example.com" rfl (by decide)).1,
    (register_conflict_for_existing_email aliceStore "u3" alicePayload
      "alice@example.com" rfl (by decide)).2 "Password1" "Alice A" rfl rfl
      (by decide) (by decide) (by decide) (by decide)⟩

/-- C9: whenever POST /api/projects succeeds (201), the resulting store
contains the new project with owner_id equal to the caller and, committed
in the same request, a ProjectMember row making the caller an ADMIN
member of it — so on creation the project has at least one member and its
owner is an ADMIN member. -/
theorem create_project_creator_becomes_admin_member (st : Store)
    (user_id new_project_id : String) (data : Projects.ProjectPayload)
    (hok : (Projects.create_project st user_id new_project_id data).1.status = 201) :
    ∃ p ∈ (Projects.create_project st user_id new_project_id data).2.projects,
      p.id = new_project_id ∧ p.owner_id = user_id ∧
      ∃ m ∈ (Projects.create_project st user_id new_project_id data).2.members,
        m.project_id = p.id ∧ m.user_id = user_id ∧ m.role = Role.ADMIN := by
  rcases hres : Projects.create_project st user_id new_project_id data with ⟨reply, st2⟩
  rw [hres] at hok
  unfold Projects.create_project at hres
  repeat' first
    | (dsimp only at hres)
    | (split at hres)
  all_goals rw [Prod.mk.injEq] at hres
  all_goals obtain ⟨hA, hB⟩ := hres
  all_goals have hok2 : reply.status = 201 := hok
  all_goals first
    | (rw [← hA] at hok2; exact absurd hok2 (by decide))
    | (subst hB;
       refine ⟨_, List.mem_cons_self _ _, ?_, ?_, _, List.mem_cons_self _ _, ?_, ?_, ?_⟩ <;> rfl)

/-- A valid creation payload. -/
def alphaPayload : Projects.ProjectPayload := { name := some "Alpha team" }

/-- Witness for C9 on a concrete successful creation. -/
theorem create_project_creator_becomes_admin_member_witness :
    (Projects.create_project emptyStore "u1" "p9" alphaPayload).1.status = 201 ∧
    (∃ p ∈ (Projects.create_project emptyStore "u1" "p9" alphaPayload).2.projects,
      p.id = "p9" ∧ p.owner_id = "u1" ∧
      ∃ m ∈ (Projects.create_project emptyStore "u1" "p9" alphaPayload).2.members,
        m.project_id = p.id ∧ m.user_id = "u1" ∧ m.role = Role.ADMIN) :=
  ⟨rfl, create_project_creator_becomes_admin_member emptyStore "u1" "p9" alphaPayload rfl⟩

end App
